import Mathlib

/-!
Verification of the MCP client orchestration core
(multi-server registry, tool routing, shared ReAct loop,
per-provider backend adapters, config loading).

The Python source is embedded shallowly:
* Python `dict` (insertion ordered, assignment overwrites in place) is
  modelled by `dictInsert` / `dictGet` on association lists;
* the network collaborators (transport layer, tool servers, LLM
  providers) are parameters: `listTools` gives each live session its
  advertised tool list, `serve` gives the result content a session
  returns for a call, and the LLM provider is a finite script of
  responses consumed one per `_send_message` round trip;
* `raise` is modelled with `Except`; awaited session invocations are
  additionally collected in a trace so that "no connection was called"
  is a statement about the model, not an absence of proof;
* `chat` runs of the shared loop emit an event trace (`ChatEvent`)
  recording each send round trip (with the tools argument it carried),
  each assistant-turn append, each audited dispatch with its call
  index, and each tool-result append, in program order. Possible
  concurrent `add_server` interleavings are modelled by an explicit
  list of registry mutations, one applied at each dispatch's await
  suspension point (the identity when no concurrent registration
  completes there). A mutation therefore becomes visible from the
  following iteration's name resolution onward, matching the source:
  `_send_message` is synchronous and `call_tool` resolves the name
  synchronously on coroutine start, so no await separates the
  start-of-call snapshot from the first dispatch resolution, and the
  only suspension points inside the loop are the awaited session
  calls themselves (a registration completing during `get_all_tools`
  itself either lands in the snapshot or breaks the dict iteration,
  so it is not modelled as a mid-call addition).
-/

namespace MCPC

/-- Tool arguments (`dict[str, Any]` in the source), modelled as an
association list of string keys to string-rendered values. -/
abbrev Args := List (String × String)

/-- The visible part of an MCP `Tool`: name, description and input
schema as advertised by a server. -/
structure ToolD where
  name : String
  description : String
  inputSchema : String
deriving DecidableEq, Repr

/-- Python dict assignment `d[k] = v`: overwrites in place when the key
exists (keeping insertion order), appends otherwise. -/
def dictInsert {α : Type} (l : List (String × α)) (k : String) (v : α) :
    List (String × α) :=
  match l with
  | [] => [(k, v)]
  | (k₀, v₀) :: rest =>
      if k₀ = k then (k, v) :: rest else (k₀, v₀) :: dictInsert rest k v

/-- Python `d.get(k)`: first (and by the `dictInsert` invariant only)
binding of the key. -/
def dictGet {α : Type} (l : List (String × α)) (k : String) : Option α :=
  match l with
  | [] => none
  | (k₀, v₀) :: rest => if k₀ = k then some v₀ else dictGet rest k

/-- State of a `BaseMCPClient`: `self.sessions` (server name to live
session handle, a `Nat` standing for the opaque `ClientSession`),
`self.tool_to_server` (the routing table), and the resources entered on
`self.exit_stack`, in acquisition order. -/
structure Client where
  sessions : List (String × Nat)
  tool_to_server : List (String × String)
  exit_stack : List Nat
deriving DecidableEq, Repr

/-- `BaseMCPClient.__init__`: empty sessions, empty routing table,
fresh exit stack. -/
def Client.init : Client := ⟨[], [], []⟩

/-- `add_server(name, url, ...)`: the transport collaborator hands back
a connection and a session (both entered on the exit stack; `sess` is
the opaque session handle, its two entered contexts modelled as
resources `2*sess` and `2*sess+1`), the session is stored under `name`,
and one routing entry per advertised tool is written
(`tool_to_server[tool.name] = name`), so a later registration
overwrites an earlier owner of the same tool name. `toolNames` is the
`list_tools()` answer of the new session. -/
def add_server (c : Client) (name : String) (sess : Nat)
    (toolNames : List String) : Client :=
  { sessions := dictInsert c.sessions name sess
    tool_to_server :=
      toolNames.foldl (fun m t => dictInsert m t name) c.tool_to_server
    exit_stack := c.exit_stack ++ [2 * sess, 2 * sess + 1] }

/-- `get_all_tools`: concatenation of `session.list_tools()` over
`self.sessions.values()` in insertion order; `listTools` is the
collaborating servers behaviour. -/
def get_all_tools (listTools : Nat → List ToolD) (c : Client) :
    List ToolD :=
  c.sessions.foldr (fun p acc => listTools p.2 ++ acc) []

/-- Errors raised by the routing layer. `valueError` is the
`ValueError` raised by `call_tool` for an unrouted tool name (the
`ToolNotFoundError` of the specification taxonomy); `keyError` would be
the `KeyError` of `self.sessions[server_name]` on a dangling routing
entry. -/
inductive CallErr
  | valueError (msg : String)
  | keyError (key : String)
deriving DecidableEq, Repr

/-- The payload returned by a session for a dispatched call: which
session was invoked, with what tool name and arguments, and the content
the server produced. -/
structure ToolResult where
  session : Nat
  tool : String
  args : Args
  content : String
deriving DecidableEq, Repr

/-- `call_tool(name, arguments)`: look the name up in
`self.tool_to_server`; raise `ValueError` when absent, otherwise await
`self.sessions[server_name].call_tool(name, arguments)`. The first
component lists the session invocations actually awaited (empty on the
raise paths, which happen before any network call); `serve` is the
collaborating servers behaviour. -/
def call_tool (serve : Nat → String → Args → String) (c : Client)
    (name : String) (args : Args) :
    List ToolResult × Except CallErr ToolResult :=
  match dictGet c.tool_to_server name with
  | none =>
      ([], .error (.valueError
        ("Tool " ++ name ++ " not found in any connected server.")))
  | some srv =>
      match dictGet c.sessions srv with
      | none => ([], .error (.keyError srv))
      | some sess =>
          let r : ToolResult := ⟨sess, name, args, serve sess name args⟩
          ([r], .ok r)

/-- `execute_tool(call_count, tool_name, tool_args)`: the
`@log_tool_call()` wrapper records the call index, arguments, result or
error, and re-raises on failure; behaviourally it is `call_tool`. -/
def execute_tool (serve : Nat → String → Args → String) (c : Client)
    (call_count : Nat) (tool_name : String) (tool_args : Args) :
    List ToolResult × Except CallErr ToolResult :=
  call_tool serve c tool_name tool_args

/-- `cleanup()`: `await self.exit_stack.aclose()` unwinds every entered
context in reverse acquisition order and leaves the stack empty.
Returns the new client state and the released resources in release
order. -/
def cleanup (c : Client) : Client × List Nat :=
  ({ c with exit_stack := [] }, c.exit_stack.reverse)

/-- `__aexit__` of the async context manager: `await self.cleanup()`. -/
def aexit (c : Client) : Client × List Nat := cleanup c

/-! ## The neutral ReAct step representation and the shared loop -/

/-- `ToolCallInfo`: tool name, arguments, and the optional provider
call identifier (`call_id`, used by the OpenAI adapter only). -/
structure ToolCallInfo where
  name : String
  arguments : Args
  call_id : Option String
deriving DecidableEq, Repr

/-- `ReActStep`: one parsed model turn. `tool_call = none` is terminal
for the loop. -/
structure ReActStep where
  thought : Option String
  tool_call : Option ToolCallInfo
deriving DecidableEq, Repr

/-- Observable events of one `chat` invocation, in program order. -/
inductive ChatEvent
  | sent (tools : Option (List ToolD))
  | appendedAssistant
  | executed (call_count : Nat) (tool : String) (session : Nat)
  | appendedResult (tool : String)
deriving DecidableEq, Repr

/-- How a modelled `chat` run ends abnormally: a tool dispatch raised
(the exception propagates out of `chat`), or the finite response script
was exhausted while the loop still wanted another round trip. -/
inductive RunErr
  | toolError (call_count : Nat) (e : CallErr)
  | outOfScript
deriving DecidableEq, Repr

/-- The `while True` body of `BaseMCPClient.chat`, driven by the
remaining response script. Each iteration: parse the current response;
if the step carries no tool call, stop and extract the final text;
otherwise append the assistant turn, increment the call counter,
dispatch through `execute_tool` (the name is resolved synchronously
against the registry as it stands when the iteration starts), append
the tool result, and send again (consuming the next scripted
response). The head of `muts` is the registry mutation a concurrently
running task completed during this dispatch's awaited session call
(identity if none); it therefore takes effect from the next
iteration's resolution onward, never before the first dispatch. -/
def reactLoop {R : Type} (parse : R → ReActStep) (final : R → String)
    (serve : Nat → String → Args → String)
    (llm_tools : Option (List ToolD)) :
    List R → List (Client → Client) → Client → Nat →
    List ChatEvent × Except RunErr String
  | [], _, _, _ => ([], .error .outOfScript)
  | r :: rest, muts, c, call_count =>
      match (parse r).tool_call with
      | none => ([], .ok (final r))
      | some tc =>
          let n := call_count + 1
          match execute_tool serve c n tc.name tc.arguments with
          | (calls, .error e) =>
              (.appendedAssistant ::
                 calls.map (fun tr => ChatEvent.executed n tc.name tr.session),
               .error (.toolError n e))
          | (_, .ok tr) =>
              let next := reactLoop parse final serve llm_tools
                rest muts.tail ((muts.headD id) c) n
              (.appendedAssistant :: .executed n tc.name tr.session ::
                 .appendedResult tc.name :: .sent llm_tools :: next.1,
               next.2)

/-- `BaseMCPClient.chat(user_input, model)`: snapshot the tool list via
`get_all_tools`, convert it once (`llm_tools`, `None` when no tools),
build the initial messages, perform the initial send, then run the
ReAct loop. The trace starts with the initial send event. -/
def chat {R : Type} (parse : R → ReActStep) (final : R → String)
    (serve : Nat → String → Args → String) (listTools : Nat → List ToolD)
    (c : Client) (muts : List (Client → Client)) (script : List R)
    (user_input : String) : List ChatEvent × Except RunErr String :=
  let mcp_tools := get_all_tools listTools c
  let llm_tools := if mcp_tools.isEmpty then none else some mcp_tools
  let body := reactLoop parse final serve llm_tools script muts c 0
  (.sent llm_tools :: body.1, body.2)

/-- A neutral provider response: the step it parses to, paired with its
final-text extraction. Used to instantiate the generic loop. -/
abbrev NResp := ReActStep × String

/-- A scripted response requesting one call of `tool` with no
arguments. -/
def stepCall (tool : String) : NResp := (⟨none, some ⟨tool, [], none⟩⟩, "")

/-- A scripted terminal response with final text `txt`. -/
def stepFinal (txt : String) : NResp := (⟨none, none⟩, txt)

/-- A script with `k` consecutive requests for `tool` followed by a
terminal response. -/
def kScript (k : Nat) (tool txt : String) : List NResp :=
  List.replicate k (stepCall tool) ++ [stepFinal txt]

/-- A canonical tool advertised by the canonical single server. -/
def tTool : ToolD := ⟨"t", "dt", "st"⟩

/-- Canonical single-server environment: every session advertises
exactly the tool `t`. -/
def oneServerTools : Nat → List ToolD := fun _ => [tTool]

/-- Canonical client: one server `A` (session 1) advertising `t`. -/
def cA : Client := add_server Client.init "A" 1 ["t"]

/-- The loop-body trace of `k` successful dispatches of `tool` to
session `sess`, call indices starting at `n + 1`, each followed by a
result append and a send of the fixed tool list `T`. -/
def canonicalChunks (T : Option (List ToolD)) (sess : Nat)
    (tool : String) : Nat → Nat → List ChatEvent
  | 0, _ => []
  | k + 1, n =>
      .appendedAssistant :: .executed (n + 1) tool sess ::
        .appendedResult tool :: .sent T ::
          canonicalChunks T sess tool k (n + 1)

/-- The call indices of the dispatch events of a trace, in order. -/
def executedIndices : List ChatEvent → List Nat
  | [] => []
  | .executed n _ _ :: rest => n :: executedIndices rest
  | _ :: rest => executedIndices rest

/-- The number of send round trips in a trace. -/
def sentCount : List ChatEvent → Nat
  | [] => 0
  | .sent _ :: rest => sentCount rest + 1
  | _ :: rest => sentCount rest

/-- The tools argument of every send round trip of a trace, in order. -/
def sentTools : List ChatEvent → List (Option (List ToolD))
  | [] => []
  | .sent t :: rest => t :: sentTools rest
  | _ :: rest => sentTools rest

/-- Well-formed loop-body traces: zero or more groups of assistant
append, dispatch, result append, send — in exactly that order — with
at most a trailing assistant append (the prefix of an iteration whose
dispatch raised). In particular every dispatched result is appended,
and a further send happens, before the next dispatch. -/
def goodShape : List ChatEvent → Bool
  | [] => true
  | [.appendedAssistant] => true
  | .appendedAssistant :: .executed _ _ _ :: .appendedResult _ ::
      .sent _ :: rest => goodShape rest
  | _ => false

/-! ## Backend adapters -/

/-- The fixed ReAct system instruction (`REACT_SYSTEM_PROMPT`). -/
def REACT_SYSTEM_PROMPT : String :=
  "You are a helpful assistant that follows the ReAct pattern.\nFor each step, you MUST:\n1. Think: Reason about what to do next based on the current state\n2. Act: Call exactly ONE tool if needed\n3. Observe: Process the tool result before deciding next action\n\nAlways explain your reasoning before taking an action.\nCall only ONE tool at a time, then wait for the result before proceeding."

/-- Roles of OpenAI chat messages. -/
inductive OAIRole
  | system | user | assistant | tool
deriving DecidableEq, Repr

/-- An OpenAI chat message (the fields the client constructs). -/
structure OAIMessage where
  role : OAIRole
  content : String
  tool_call_id : Option String
deriving DecidableEq, Repr

/-- `OpenAIMCPClient._create_initial_messages`: a system message with
the ReAct prompt followed by the user message. -/
def openai_create_initial_messages (user_input : String) :
    List OAIMessage :=
  [⟨.system, REACT_SYSTEM_PROMPT, none⟩, ⟨.user, user_input, none⟩]

/-- A Gemini `function_call` part payload. -/
structure GFunctionCall where
  name : String
  args : Args
deriving DecidableEq, Repr

/-- A Gemini response part: optional text, optional function call. -/
structure GPart where
  text : Option String
  function_call : Option GFunctionCall
deriving DecidableEq, Repr

/-- A Gemini `types.Content` message (role plus parts). -/
structure GContent where
  role : String
  parts : List GPart
deriving DecidableEq, Repr

/-- `GeminiMCPClient._create_initial_messages`: returns the empty list
(the conversation lives in the chat object, created lazily at the
first send). -/
def gemini_create_initial_messages (user_input : String) :
    List GContent := []

/-- Whether a seeded message list carries the ReAct system
instruction in some part of some message. -/
def seedCarriesSystemPrompt (ms : List GContent) : Bool :=
  ms.any (fun m => m.parts.any (fun p => p.text == some REACT_SYSTEM_PROMPT))

/-- Python truthiness filter `[p.text for p in parts if p.text]`: keeps
present, non-empty text. -/
def textOf (p : GPart) : Option String :=
  match p.text with
  | some t => if t = "" then none else some t
  | none => none

/-- `GeminiMCPClient._parse_response`: joins the truthy text parts into
the thought and honours only the first `function_call` part. -/
def gemini_parse_response (parts : List GPart) : ReActStep :=
  let thought_parts := parts.filterMap textOf
  let fc_parts := parts.filterMap (fun p => p.function_call)
  let thought :=
    if thought_parts.isEmpty then none
    else some (String.intercalate " " thought_parts)
  match fc_parts with
  | [] => ⟨thought, none⟩
  | fc :: _ => ⟨thought, some ⟨fc.name, fc.args, none⟩⟩

/-- `response.text` of a Gemini response: the concatenated text parts,
`None` when there are none. -/
def gresp_text (parts : List GPart) : Option String :=
  let ts := parts.filterMap (fun p => p.text)
  if ts.isEmpty then none else some (String.intercalate "" ts)

/-- The chat object the Gemini client creates lazily
(`self._client.chats.create(model=..., config={"tools": ...,
"system_instruction": REACT_SYSTEM_PROMPT})`). -/
structure GChatHandle where
  model : String
  tools : Option (List ToolD)
  system_instruction : String
deriving DecidableEq, Repr

/-- The pending `types.Part.from_function_response(name=...,
response={"result": ...})` payload. -/
structure GPendingPart where
  name : String
  result : String
deriving DecidableEq, Repr

/-- What one `chat.send_message(...)` call transmitted: the pending
user input, the pending function-response part, or `None` (when a
follow-up send happens with no pending part). -/
inductive GSent
  | userText (s : String)
  | functionResponse (name : String) (result : String)
  | noneMessage
deriving DecidableEq, Repr

/-- State of a `GeminiMCPClient`: the inherited registry state plus
the fields `_chat` (here `chat_obj`), `_pending_user_input` and
`_pending_tool_response`. -/
structure GeminiClient where
  base : Client
  chat_obj : Option GChatHandle
  pending_user_input : String
  pending_tool_response : Option GPendingPart
deriving DecidableEq, Repr

/-- `GeminiMCPClient.__init__` on top of an already-registered base
client: no chat object, empty pending user input, no pending tool
response. -/
def GeminiClient.start (c : Client) : GeminiClient := ⟨c, none, "", none⟩

/-- `GeminiMCPClient._send_message`: on the first call creates the
chat object (carrying the tools and the ReAct system instruction) and
transmits `_pending_user_input`; on follow-up calls transmits
`_pending_tool_response`. Returns the new client state and what was
transmitted. -/
def gemini_send_message (g : GeminiClient) (model : String)
    (tools : Option (List ToolD)) : GeminiClient × GSent :=
  match g.chat_obj with
  | none =>
      ({ g with chat_obj := some ⟨model, tools, REACT_SYSTEM_PROMPT⟩ },
       .userText g.pending_user_input)
  | some _ =>
      (g,
       match g.pending_tool_response with
       | none => .noneMessage
       | some p => .functionResponse p.name p.result)

/-- `GeminiMCPClient._append_tool_result`: stores the function
response as the pending part for the next send. -/
def gemini_append_tool_result (g : GeminiClient) (tc : ToolCallInfo)
    (result : ToolResult) : GeminiClient :=
  { g with pending_tool_response := some ⟨tc.name, result.content⟩ }

/-- The ReAct loop as it runs with the Gemini adapter: the shared loop
of `BaseMCPClient.chat` with the adapter state threaded through. On
normal termination `_get_final_response` resets `chat_obj` to `none`
and extracts `response.text`; on a dispatch error the exception
propagates with the adapter state untouched. Returns the final adapter
state, the transmitted messages, and the outcome. -/
def geminiLoop (serve : Nat → String → Args → String) (model : String)
    (llm_tools : Option (List ToolD)) :
    List (List GPart) → GeminiClient → Nat →
    GeminiClient × List GSent × Except RunErr (Option String)
  | [], g, _ => (g, [], .error .outOfScript)
  | resp :: rest, g, call_count =>
      match (gemini_parse_response resp).tool_call with
      | none => ({ g with chat_obj := none }, [], .ok (gresp_text resp))
      | some tc =>
          let n := call_count + 1
          match execute_tool serve g.base n tc.name tc.arguments with
          | (_, .error e) => (g, [], .error (.toolError n e))
          | (_, .ok tr) =>
              let g₁ := gemini_append_tool_result g tc tr
              let s₁ := gemini_send_message g₁ model llm_tools
              let out := geminiLoop serve model llm_tools rest s₁.1 n
              (out.1, s₁.2 :: out.2.1, out.2.2)

/-- `GeminiMCPClient.chat`: store the user input in
`_pending_user_input`, then run the inherited `chat` (tool snapshot,
initial send, loop). -/
def geminiChat (serve : Nat → String → Args → String)
    (listTools : Nat → List ToolD) (g : GeminiClient)
    (script : List (List GPart)) (user_input : String) (model : String) :
    GeminiClient × List GSent × Except RunErr (Option String) :=
  let g₀ := { g with pending_user_input := user_input }
  let mcp_tools := get_all_tools listTools g₀.base
  let llm_tools := if mcp_tools.isEmpty then none else some mcp_tools
  let s₀ := gemini_send_message g₀ model llm_tools
  let out := geminiLoop serve model llm_tools script s₀.1 0
  (out.1, s₀.2 :: out.2.1, out.2.2)

/-- `GeminiMCPClient.DEFAULT_MODEL`. -/
def gemini_DEFAULT_MODEL : String := "gemini-2.5-flash"

/-- A Gemini response part carrying only text. -/
def gPartText (s : String) : GPart := ⟨some s, none⟩

/-- A Gemini response part carrying only a no-argument function call. -/
def gPartCall (tool : String) : GPart := ⟨none, some ⟨tool, []⟩⟩

/-- The tool advertised by the initially registered server of the
mid-call registration scenario. -/
def xTool : ToolD := ⟨"x", "dx", "sx"⟩

/-- The tool advertised by the server registered mid-call. -/
def zTool : ToolD := ⟨"z", "dz", "sz"⟩

/-- Server environment of the mid-call registration scenario: session 1
advertises `x`, any other session advertises `z`. -/
def twoServerTools : Nat → List ToolD :=
  fun s => if s = 1 then [xTool] else [zTool]

/-- Client of the mid-call registration scenario before `chat` starts:
one server `A` (session 1) advertising `x`. -/
def cX : Client := add_server Client.init "A" 1 ["x"]

/-- Gemini scenario, successful run: one server (session 1, tool `t`),
and the model answers immediately with the text `done`. -/
def geminiRunOk :
    GeminiClient × List GSent × Except RunErr (Option String) :=
  geminiChat (fun _ _ _ => "ok") oneServerTools (GeminiClient.start cA)
    [[gPartText "done"]] "hi" gemini_DEFAULT_MODEL

/-- Gemini scenario, failing run: the model first calls the registered
tool `t` (dispatch succeeds, its function response becomes the pending
part), then calls the unregistered tool `u`, whose dispatch raises, so
`chat` exits with the exception after the first send. -/
def geminiRunFail :
    GeminiClient × List GSent × Except RunErr (Option String) :=
  geminiChat (fun _ _ _ => "ok") oneServerTools (GeminiClient.start cA)
    [[gPartCall "t"], [gPartCall "u"]] "first question"
    gemini_DEFAULT_MODEL

/-- Gemini scenario, next `chat` call on the same instance after the
failing run, with fresh user input. -/
def geminiRunAfterFail :
    GeminiClient × List GSent × Except RunErr (Option String) :=
  geminiChat (fun _ _ _ => "ok") oneServerTools geminiRunFail.1
    [[gPartText "late"]] "new question" gemini_DEFAULT_MODEL

/-! ## Configuration loading -/

/-- `TransportType` (`sse` / `http`). -/
inductive TransportType
  | SSE | HTTP
deriving DecidableEq, Repr

/-- `MCPConfig.from_dict` transport parsing: lower-case the string,
construct the enum, fall back to SSE (with a warning) on unknown
values. -/
def transport_of_string (s : String) : TransportType :=
  if s.toLower = "sse" then .SSE
  else if s.toLower = "http" then .HTTP
  else .SSE

/-- `MCPServerConfig`: one server entry of the parsed configuration. -/
structure MCPServerConfig where
  name : String
  url : String
  transport : TransportType
  headers : List (String × String)
  timeout : Nat
deriving DecidableEq, Repr

/-- `MCPConfig`: the parsed configuration. -/
structure MCPConfig where
  servers : List MCPServerConfig
deriving DecidableEq, Repr

/-- One raw server object of the configuration JSON: each field
optional, defaults applied by `from_dict`. -/
structure ServerEntry where
  url : Option String
  transport : Option String
  headers : Option (List (String × String))
  timeout : Option Nat
deriving DecidableEq, Repr

/-- Raw configuration data: the optional `mcpServers` mapping. -/
structure ConfigData where
  mcpServers : Option (List (String × ServerEntry))
deriving DecidableEq, Repr

/-- `MCPConfig.from_dict`: defaults `url` to the empty string,
`transport` to `"sse"`, `headers` to empty, `timeout` to 30. -/
def mcpconfig_from_dict (d : ConfigData) : MCPConfig :=
  ⟨(d.mcpServers.getD []).map (fun p =>
    ⟨p.1, p.2.url.getD "", transport_of_string (p.2.transport.getD "sse"),
      p.2.headers.getD [], p.2.timeout.getD 30⟩)⟩

/-- Configuration loading errors: the `FileNotFoundError` raised by
`MCPConfig.from_file` and a JSON decoding failure. -/
inductive CfgErr
  | fileNotFound (msg : String)
  | jsonDecode (msg : String)
deriving DecidableEq, Repr

/-- `MCPConfig.from_file`: raise `FileNotFoundError` naming the path
when the file does not exist, otherwise decode and delegate to
`from_dict`. `fs` is the file system collaborator (path to decoded
content). -/
def mcpconfig_from_file (fs : String → Option ConfigData) (p : String) :
    Except CfgErr MCPConfig :=
  match fs p with
  | none => .error (.fileNotFound ("Config file not found: " ++ p))
  | some d => .ok (mcpconfig_from_dict d)

/-- `MCPConfig.from_json`: decode the string (the JSON parser is the
external collaborator `parseJson`) and delegate to `from_dict`. -/
def mcpconfig_from_json (parseJson : String → Except CfgErr ConfigData)
    (s : String) : Except CfgErr MCPConfig :=
  (parseJson s).map mcpconfig_from_dict

/-- Python `str.strip()`: drop leading and trailing whitespace. -/
def pyStrip (l : List Char) : List Char :=
  ((l.dropWhile Char.isWhitespace).reverse.dropWhile
    Char.isWhitespace).reverse

/-- Python `config.strip().startswith("\x7b")`: whether the stripped
string starts with an opening brace. -/
def stripStartsBrace (s : String) : Bool :=
  match pyStrip s.data with
  | [] => false
  | c :: _ => c == '\x7b'

/-- The four accepted input forms of `load_servers_from_config`: an
already-parsed `MCPConfig`, a raw dict, a `Path`, or a `str`. -/
inductive ConfigSource
  | cfg (m : MCPConfig)
  | dict (d : ConfigData)
  | path (p : String)
  | str (s : String)

/-- The configuration-normalisation prefix of
`load_servers_from_config`: `MCPConfig` is used as is; a dict goes
through `from_dict`; a `Path`, or a `str` whose stripped form does not
start with a brace, goes through `from_file`; any other `str` goes
through `from_json`. -/
def resolve_config (fs : String → Option ConfigData)
    (parseJson : String → Except CfgErr ConfigData) :
    ConfigSource → Except CfgErr MCPConfig
  | .cfg m => .ok m
  | .dict d => .ok (mcpconfig_from_dict d)
  | .path p => mcpconfig_from_file fs p
  | .str s =>
      if ¬ (stripStartsBrace s) then mcpconfig_from_file fs s
      else mcpconfig_from_json parseJson s

/-- `load_servers_from_config`: normalise the configuration source and
then `add_server` once per descriptor, in order. `sessOf` and
`advertised` are the transport and server collaborators for the
resulting connections. -/
def load_servers_from_config (fs : String → Option ConfigData)
    (parseJson : String → Except CfgErr ConfigData)
    (sessOf : String → Nat) (advertised : String → List String)
    (c : Client) (cfg : ConfigSource) : Except CfgErr Client :=
  match resolve_config fs parseJson cfg with
  | .error e => .error e
  | .ok m =>
      .ok (m.servers.foldl
        (fun cl s => add_server cl s.name (sessOf s.name) (advertised s.name))
        c)

/-! ## Claims -/

/-- C1. Last-registered server wins per tool name, and dispatch follows
the routing table to the owning session: after `add_server("A", ...)`
advertising `x, y` (session 1) and `add_server("B", ...)` advertising
`y, z` (session 2), resolution gives `y -> B`, `x -> A`, `z -> B`, and
`call_tool` awaits the owning session (1 for `x`, 2 for `y` and `z`). -/
theorem c1_last_registered_wins (serve : Nat → String → Args → String)
    (args : Args) :
    let c := add_server (add_server Client.init "A" 1 ["x", "y"])
      "B" 2 ["y", "z"]
    dictGet c.tool_to_server "y" = some "B" ∧
    dictGet c.tool_to_server "x" = some "A" ∧
    dictGet c.tool_to_server "z" = some "B" ∧
    (call_tool serve c "y" args).2 = .ok ⟨2, "y", args, serve 2 "y" args⟩ ∧
    (call_tool serve c "x" args).2 = .ok ⟨1, "x", args, serve 1 "x" args⟩ ∧
    (call_tool serve c "z" args).2 = .ok ⟨2, "z", args, serve 2 "z" args⟩ := by
  refine ⟨rfl, rfl, rfl, rfl, rfl, rfl⟩

/-- C4. Dispatching a tool name absent from the routing table raises
the not-found `ValueError` (the specifications `ToolNotFoundError`),
the error is surfaced to the caller, and no session `call_tool` is
awaited (the invocation trace is empty). -/
theorem c4_unrouted_tool_fails (serve : Nat → String → Args → String)
    (c : Client) (name : String) (args : Args)
    (h : dictGet c.tool_to_server name = none) :
    call_tool serve c name args =
      ([], .error (.valueError
        ("Tool " ++ name ++ " not found in any connected server."))) := by
  unfold call_tool
  rw [h]

/-- Witness for C4 at the freshly initialised client, which routes no
tool at all. -/
theorem c4_unrouted_tool_fails_witness :
    call_tool (fun _ _ _ => "") Client.init "mul" [] =
      ([], .error (.valueError
        ("Tool mul not found in any connected server."))) :=
  c4_unrouted_tool_fails (fun _ _ _ => "") Client.init "mul" [] rfl

/-- Helper: running the loop against the canonical single-server client
on a script of `k` tool requests followed by a terminal response yields
exactly the canonical trace and the scripted final text. -/
theorem reactLoop_kScript (serve : Nat → String → Args → String)
    (T : Option (List ToolD)) (txt : String) :
    ∀ (k n : Nat),
      reactLoop Prod.fst Prod.snd serve T (kScript k "t" txt) [] cA n =
        (canonicalChunks T 1 "t" k n, .ok txt) := by
  intro k
  induction k with
  | zero => intro n; rfl
  | succ k ih =>
      intro n
      have hk : kScript (k + 1) "t" txt = stepCall "t" :: kScript k "t" txt := by
        simp [kScript, List.replicate_succ]
      rw [hk]
      show (ChatEvent.appendedAssistant ::
              ChatEvent.executed (n + 1) "t" 1 ::
              ChatEvent.appendedResult "t" :: ChatEvent.sent T ::
              (reactLoop Prod.fst Prod.snd serve T (kScript k "t" txt)
                [] cA (n + 1)).1,
            (reactLoop Prod.fst Prod.snd serve T (kScript k "t" txt)
              [] cA (n + 1)).2) =
          (canonicalChunks T 1 "t" (k + 1) n, Except.ok txt)
      rw [ih (n + 1)]
      rfl

/-- Helper: the dispatch indices of the canonical trace are the `k`
consecutive naturals starting at `n + 1`. -/
theorem executedIndices_canonicalChunks (T : Option (List ToolD))
    (sess : Nat) (tool : String) :
    ∀ (k n : Nat),
      executedIndices (canonicalChunks T sess tool k n) =
        List.range' (n + 1) k := by
  intro k
  induction k with
  | zero => intro n; rfl
  | succ k ih =>
      intro n
      rw [List.range'_succ]
      simpa [canonicalChunks, executedIndices] using ih (n + 1)

/-- Helper: the canonical trace of `k` dispatches contains `k` send
round trips. -/
theorem sentCount_canonicalChunks (T : Option (List ToolD))
    (sess : Nat) (tool : String) :
    ∀ (k n : Nat), sentCount (canonicalChunks T sess tool k n) = k := by
  intro k
  induction k with
  | zero => intro n; rfl
  | succ k ih =>
      intro n
      simpa [canonicalChunks, sentCount] using ih (n + 1)

/-- Helper: the full `chat` run on the canonical `k`-step script. -/
theorem chat_kScript (serve : Nat → String → Args → String)
    (k : Nat) (txt u : String) :
    chat Prod.fst Prod.snd serve oneServerTools cA [] (kScript k "t" txt) u =
      (.sent (some [tTool]) :: canonicalChunks (some [tTool]) 1 "t" k 0,
       .ok txt) := by
  show (ChatEvent.sent (some [tTool]) ::
          (reactLoop Prod.fst Prod.snd serve (some [tTool])
            (kScript k "t" txt) [] cA 0).1,
        (reactLoop Prod.fst Prod.snd serve (some [tTool])
          (kScript k "t" txt) [] cA 0).2) = _
  rw [reactLoop_kScript]

/-- C2. On a chat invocation in which the model requests `k`
sequential tool calls and then answers, the run terminates with the
final answer, the call indices handed to the audited `execute_tool`
dispatch are exactly `1, 2, ..., k` in order (`List.range' 1 k`), and
the loop performs `k` send round trips after the initial send (`k + 1`
sends in total). -/
theorem c2_call_indices_one_to_k (k : Nat)
    (serve : Nat → String → Args → String) (txt u : String) :
    (chat Prod.fst Prod.snd serve oneServerTools cA []
        (kScript k "t" txt) u).2 = .ok txt ∧
    executedIndices (chat Prod.fst Prod.snd serve oneServerTools cA []
        (kScript k "t" txt) u).1 = List.range' 1 k ∧
    sentCount (chat Prod.fst Prod.snd serve oneServerTools cA []
        (kScript k "t" txt) u).1 = k + 1 := by
  rw [chat_kScript]
  refine ⟨rfl, ?_, ?_⟩
  · simpa [executedIndices] using
      executedIndices_canonicalChunks (some [tTool]) 1 "t" k 0
  · simpa [sentCount] using
      sentCount_canonicalChunks (some [tTool]) 1 "t" k 0

/-- C3. When the first parsed step carries no tool call, `chat`
terminates after the single initial send: the trace holds exactly one
send event and no dispatch, and the returned text is the adapter
extraction of that first response. -/
theorem c3_no_tool_single_round_trip {R : Type} (parse : R → ReActStep)
    (final : R → String) (serve : Nat → String → Args → String)
    (listTools : Nat → List ToolD) (c : Client)
    (muts : List (Client → Client)) (r : R) (rest : List R) (u : String)
    (h : (parse r).tool_call = none) :
    chat parse final serve listTools c muts (r :: rest) u =
      ([.sent (if (get_all_tools listTools c).isEmpty then none
               else some (get_all_tools listTools c))],
       .ok (final r)) := by
  simp only [chat, reactLoop, h]

/-- Witness for C3: a one-response script whose step has no tool call,
against a client with no servers. -/
theorem c3_no_tool_single_round_trip_witness :
    chat Prod.fst Prod.snd (fun _ _ _ => "") (fun _ => []) Client.init []
      [stepFinal "hi"] "Hello" = ([.sent none], .ok "hi") :=
  c3_no_tool_single_round_trip Prod.fst Prod.snd (fun _ _ _ => "")
    (fun _ => []) Client.init [] (stepFinal "hi") [] "Hello" rfl

/-- Helper: a list of dispatch events contains no send event. -/
theorem sentTools_map_executed (l : List ToolResult) (n : Nat)
    (name : String) :
    sentTools (l.map fun tr => ChatEvent.executed n name tr.session) = [] := by
  induction l with
  | nil => rfl
  | cons tr rest ih => simpa [sentTools] using ih

/-- Helper: on the raise paths of the audited dispatch no session call
was awaited. -/
theorem execute_tool_error_no_calls (serve : Nat → String → Args → String)
    (c : Client) (n : Nat) (name : String) (args : Args)
    (calls : List ToolResult) (e : CallErr)
    (h : execute_tool serve c n name args = (calls, .error e)) :
    calls = [] := by
  unfold execute_tool call_tool at h
  split at h
  · simp_all
  · split at h
    · simp_all
    · simp_all

/-- Helper: every send round trip performed by the loop body carries
the tools value computed before the loop — regardless of registry
mutations performed mid-call. -/
theorem sentTools_reactLoop {R : Type} (parse : R → ReActStep)
    (final : R → String) (serve : Nat → String → Args → String)
    (T : Option (List ToolD)) :
    ∀ (script : List R) (muts : List (Client → Client)) (c : Client)
      (n : Nat) (t : Option (List ToolD)),
      t ∈ sentTools (reactLoop parse final serve T script muts c n).1 →
      t = T := by
  intro script
  induction script with
  | nil =>
      intro muts c n t h
      simp [reactLoop, sentTools] at h
  | cons r rest ih =>
      intro muts c n t h
      simp only [reactLoop] at h
      split at h
      · simp [sentTools] at h
      · split at h
        · simp [sentTools, sentTools_map_executed] at h
        · simp only [sentTools, List.mem_cons] at h
          rcases h with h | h
          · exact h
          · exact ih _ _ _ t h

/-- C5 counterexample. The claim asserts that a server added mid-call
is neither offered to the model nor dispatchable until the next `chat`
call. In this run, server `A` (session 1, tool `x`) is registered at
call start; the model first requests `x`, and while that dispatch is
awaiting session 1 a concurrent `add_server` completes the
registration of server `B` (session 2, tool `z`); the model then
requests `z`. The snapshot offered to the model at every send is only
the `x` tool, yet the dispatch of `z` succeeds later in the same call,
reaching session 2 — `call_tool` resolves against the live routing
table, so the "nor dispatchable" half of the claim is false. -/
theorem c5_counterexample :
    chat Prod.fst Prod.snd (fun _ _ _ => "ok") twoServerTools cX
        [fun c => add_server c "B" 2 ["z"]]
        [stepCall "x", stepCall "z", stepFinal "done"] "q" =
      ([.sent (some [xTool]), .appendedAssistant, .executed 1 "x" 1,
        .appendedResult "x", .sent (some [xTool]), .appendedAssistant,
        .executed 2 "z" 2, .appendedResult "z", .sent (some [xTool])],
       .ok "done") := by
  rfl

/-- C5 as amended: the tool list offered to the model is the snapshot
taken at the start of the `chat` call and is fixed across every send of
that call (servers added mid-call are not offered to the model until
the next call); dispatch, however, resolves each tool name against the
routing table as it stands at dispatch time, so a tool of a server
whose registration completes during an earlier dispatch's await is
dispatchable later within the same call (witnessed by the mid-call
registration scenario). -/
theorem c5_amended :
    (∀ {R : Type} (parse : R → ReActStep) (final : R → String)
       (serve : Nat → String → Args → String)
       (listTools : Nat → List ToolD) (c : Client)
       (muts : List (Client → Client)) (script : List R) (u : String)
       (t : Option (List ToolD)),
       t ∈ sentTools (chat parse final serve listTools c muts script u).1 →
       t = (if (get_all_tools listTools c).isEmpty then none
            else some (get_all_tools listTools c))) ∧
    (∀ (serve : Nat → String → Args → String) (c : Client) (name : String)
       (args : Args) (srv : String) (sess : Nat),
       dictGet c.tool_to_server name = some srv →
       dictGet c.sessions srv = some sess →
       (call_tool serve c name args).2 =
         .ok ⟨sess, name, args, serve sess name args⟩) ∧
    ChatEvent.executed 2 "z" 2 ∈
      (chat Prod.fst Prod.snd (fun _ _ _ => "ok") twoServerTools cX
        [fun c => add_server c "B" 2 ["z"]]
        [stepCall "x", stepCall "z", stepFinal "done"] "q").1 := by
  refine ⟨?_, ?_, by decide⟩
  · intro R parse final serve listTools c muts script u t h
    simp only [chat, sentTools, List.mem_cons] at h
    rcases h with h | h
    · exact h
    · exact sentTools_reactLoop parse final serve _ script muts c 0 t h
  · intro serve c name args srv sess h₁ h₂
    simp [call_tool, h₁, h₂]

/-- Witness for C5 (amended): the snapshot conjunct at the canonical
single-server run, and live-table dispatch at the canonical client. -/
theorem c5_amended_witness :
    (some [tTool] =
      if (get_all_tools oneServerTools cA).isEmpty then none
      else some (get_all_tools oneServerTools cA)) ∧
    (call_tool (fun _ _ _ => "r") cA "t" []).2 = .ok ⟨1, "t", [], "r"⟩ :=
  ⟨(c5_amended.1 Prod.fst Prod.snd (fun _ _ _ => "") oneServerTools cA []
      [stepFinal "bye"] "u" (some [tTool]) (by decide)).symm ▸ rfl,
   c5_amended.2.1 (fun _ _ _ => "r") cA "t" [] "A" 1 rfl rfl⟩

/-- C6 counterexample. The claim asserts that every backend adapter
seeds the conversation state with the ReAct system instruction. The
Gemini adapter seeds the empty state: `_create_initial_messages`
returns `[]` for the input `Hello`, so the seeded state carries no
system prompt before the first send. -/
theorem c6_counterexample :
    gemini_create_initial_messages "Hello" = [] ∧
    seedCarriesSystemPrompt (gemini_create_initial_messages "Hello")
      = false :=
  ⟨rfl, rfl⟩

/-- C6 as amended: the OpenAI adapter seeds the state with the fixed
ReAct system instruction followed by the user input; the Gemini
adapter seeds the empty state and instead supplies the ReAct system
instruction as the chat configuration of the chat object it creates at
the first send (which transmits the pending user input). -/
theorem c6_amended :
    (∀ u, openai_create_initial_messages u =
      [⟨.system, REACT_SYSTEM_PROMPT, none⟩, ⟨.user, u, none⟩]) ∧
    (∀ u, gemini_create_initial_messages u = []) ∧
    (∀ (g : GeminiClient) (model : String) (tools : Option (List ToolD)),
      g.chat_obj = none →
      gemini_send_message g model tools =
        ({ g with chat_obj := some ⟨model, tools, REACT_SYSTEM_PROMPT⟩ },
         .userText g.pending_user_input)) := by
  refine ⟨fun u => rfl, fun u => rfl, fun g model tools h => ?_⟩
  unfold gemini_send_message
  rw [h]

/-- Witness for C6 (amended): the first-send conjunct at a concrete
fresh Gemini client carrying the pending user input `hi`. -/
theorem c6_amended_witness :
    gemini_send_message ⟨Client.init, none, "hi", none⟩ "m" none =
      (⟨Client.init, some ⟨"m", none, REACT_SYSTEM_PROMPT⟩, "hi", none⟩,
       .userText "hi") :=
  c6_amended.2.2 ⟨Client.init, none, "hi", none⟩ "m" none rfl

/-- Helper: the loop-body trace is always well shaped — assistant
append, dispatch, result append, send, in that order per iteration. -/
theorem goodShape_reactLoop {R : Type} (parse : R → ReActStep)
    (final : R → String) (serve : Nat → String → Args → String)
    (T : Option (List ToolD)) :
    ∀ (script : List R) (muts : List (Client → Client)) (c : Client)
      (n : Nat),
      goodShape (reactLoop parse final serve T script muts c n).1 = true := by
  intro script
  induction script with
  | nil => intro muts c n; rfl
  | cons r rest ih =>
      intro muts c n
      simp only [reactLoop]
      split
      · rfl
      · split
        · next calls e heq =>
            rw [execute_tool_error_no_calls _ _ _ _ _ _ _ heq]
            rfl
        · simp [goodShape, ih]

/-- C7. Strict sequentiality and one-tool-per-turn: (a) every
loop-body trace consists of iterations that each append the assistant
turn, dispatch exactly one tool, append its result, and only then send
the next request — so observation `i` is folded into state before
request `i + 1` goes out and no two dispatches happen without an
intervening result append and send; (b) on the canonical `k`-step run
the full trace is exactly the initial send followed by those
iteration groups; (c) the Gemini parser honours only the first
function call of a response that names several. -/
theorem c7_sequential_single_tool :
    (∀ {R : Type} (parse : R → ReActStep) (final : R → String)
       (serve : Nat → String → Args → String) (T : Option (List ToolD))
       (script : List R) (muts : List (Client → Client)) (c : Client)
       (n : Nat),
       goodShape (reactLoop parse final serve T script muts c n).1
         = true) ∧
    (∀ (k : Nat) (serve : Nat → String → Args → String) (txt u : String),
       (chat Prod.fst Prod.snd serve oneServerTools cA []
          (kScript k "t" txt) u).1 =
         .sent (some [tTool]) :: canonicalChunks (some [tTool]) 1 "t" k 0) ∧
    (∀ (parts : List GPart) (fc : GFunctionCall)
       (l : List GFunctionCall),
       parts.filterMap (fun p => p.function_call) = fc :: l →
       (gemini_parse_response parts).tool_call =
         some ⟨fc.name, fc.args, none⟩) := by
  refine ⟨?_, ?_, ?_⟩
  · intro R parse final serve T script muts c n
    exact goodShape_reactLoop parse final serve T script muts c n
  · intro k serve txt u
    rw [chat_kScript]
  · intro parts fc l h
    simp only [gemini_parse_response, h]

/-- Witness for C7: a Gemini response naming two function calls is
parsed into a step carrying only the first. -/
theorem c7_sequential_single_tool_witness :
    (gemini_parse_response [gPartCall "a", gPartCall "b"]).tool_call =
      some ⟨"a", [], none⟩ :=
  c7_sequential_single_tool.2.2 [gPartCall "a", gPartCall "b"]
    ⟨"a", []⟩ [⟨"b", []⟩] rfl

/-- C8. `cleanup` is idempotent: the second call releases nothing and
leaves the state unchanged; the first call releases every held
resource (in reverse acquisition order); and the async context
manager exit path is exactly `cleanup`, so every exit of the scoped
lifetime releases the held connections. -/
theorem c8_cleanup_idempotent (c : Client) :
    (cleanup (cleanup c).1).2 = [] ∧
    (cleanup (cleanup c).1).1 = (cleanup c).1 ∧
    (cleanup c).2 = c.exit_stack.reverse ∧
    aexit c = cleanup c :=
  ⟨rfl, rfl, rfl, rfl⟩

/-- C9. Gemini chat-handle lifecycle: on the successful run the handle
is reset to `none` (inside `_get_final_response`) and the final text
returned; on the run that raises after the first send, the handle and
the pending tool-response part remain set; and the next `chat` call on
that same instance transmits the stale pending tool response as its
first message instead of the new user input. -/
theorem c9_gemini_stale_chat_state :
    (geminiRunOk.1.chat_obj = none ∧
      geminiRunOk.2.2 = .ok (some "done")) ∧
    (geminiRunFail.1.chat_obj =
        some ⟨gemini_DEFAULT_MODEL, some [tTool], REACT_SYSTEM_PROMPT⟩ ∧
      geminiRunFail.1.pending_tool_response = some ⟨"t", "ok"⟩ ∧
      geminiRunFail.2.2 = .error (.toolError 2 (.valueError
        "Tool u not found in any connected server."))) ∧
    ((geminiRunAfterFail.2.1.head? = some (.functionResponse "t" "ok")) ∧
      geminiRunAfterFail.2.1.head? ≠ some (.userText "new question")) := by
  refine ⟨⟨rfl, rfl⟩, ⟨rfl, rfl, rfl⟩, rfl, by decide⟩

/-- C10. `load_servers_from_config` accepts the four input forms: an
`MCPConfig` is used as is, a dict goes through `from_dict`, a `Path`
through `from_file`; a `str` is parsed as JSON text exactly when its
stripped form starts with a brace and is otherwise treated as a file
path; a missing file fails with `FileNotFoundError` naming the path. -/
theorem c10_config_input_forms (fs : String → Option ConfigData)
    (parseJson : String → Except CfgErr ConfigData) :
    (∀ m, resolve_config fs parseJson (.cfg m) = .ok m) ∧
    (∀ d, resolve_config fs parseJson (.dict d) =
        .ok (mcpconfig_from_dict d)) ∧
    (∀ p, resolve_config fs parseJson (.path p) =
        mcpconfig_from_file fs p) ∧
    (∀ s, stripStartsBrace s = true →
        resolve_config fs parseJson (.str s) =
          mcpconfig_from_json parseJson s) ∧
    (∀ s, stripStartsBrace s = false →
        resolve_config fs parseJson (.str s) = mcpconfig_from_file fs s) ∧
    (∀ p, fs p = none →
        mcpconfig_from_file fs p =
          .error (.fileNotFound ("Config file not found: " ++ p))) := by
  refine ⟨fun m => rfl, fun d => rfl, fun p => rfl,
    fun s h => ?_, fun s h => ?_, fun p h => ?_⟩
  · simp [resolve_config, h]
  · simp [resolve_config, h]
  · simp [mcpconfig_from_file, h]

/-- Witness for C10: with an empty file system, the string
`servers.json` is treated as a missing file path (the error names it),
while a braced string is parsed as JSON text. -/
theorem c10_config_input_forms_witness :
    resolve_config (fun _ => none) (fun _ => .ok ⟨some []⟩)
        (.str "servers.json") =
      .error (.fileNotFound "Config file not found: servers.json") ∧
    resolve_config (fun _ => none) (fun _ => .ok ⟨some []⟩)
        (.str " \x7b\x7d ") = .ok ⟨[]⟩ := by
  constructor
  · exact ((c10_config_input_forms (fun _ => none)
        (fun _ => .ok ⟨some []⟩)).2.2.2.2.1 "servers.json" rfl).trans
      ((c10_config_input_forms (fun _ => none)
        (fun _ => .ok ⟨some []⟩)).2.2.2.2.2 "servers.json" rfl)
  · exact ((c10_config_input_forms (fun _ => none)
        (fun _ => .ok ⟨some []⟩)).2.2.2.1 " \x7b\x7d " rfl).trans rfl

end MCPC
